import Mathlib

/-!
Shallow embedding of `aind_data_migration_utils` (files `migrate.py` and
`utils.py`), modelling the `Migrator` pipeline: fetch, transform, write-back,
report, plus `revert`.

Conventions of the embedding:
* A MongoDB document (`Record`) is an identifier plus a list of named fields.
* The store client (`MetadataDbClient`, an external collaborator) is modelled
  by `Client`: the list of records a fetch returns and a response function for
  upserts.  Every network call a method performs is recorded in a `StoreCall`
  trace so that "no store call is made" is a statement about the trace.
* A raising Python callback is `Record → Except String Record`, the `String`
  being `str(e)`.
* Python attribute mutation is explicit state passing on the `Migrator`
  structure; a raised exception is an `Option String` / `Except String` value.
  Python `self` survives a raised exception, so `Migrator.run` returns the
  state reached together with the error, rather than discarding it.
-/

/-- A MongoDB query, as the `dict` passed to the client (`filter_query`). -/
abbrev Query := List (String × String)

/-- A document: the `_id` plus the other fields present. -/
structure Record where
  _id : String
  fields : List (String × String)
deriving DecidableEq, Repr

/-- Status strings appearing in `self.results` entries in `migrate.py`. -/
inductive ResultStatus where
  | success
  | failed
  | dry_run
deriving DecidableEq, Repr

/-- One entry of `self.results`: `{"_id": ..., "status": ..., "notes": ...}`. -/
structure ResultEntry where
  _id : String
  status : ResultStatus
  notes : String
deriving DecidableEq, Repr

/-- The response object returned by `client.upsert_one_docdb_record`. -/
structure UpsertResponse where
  status_code : Nat
  text : String
deriving DecidableEq, Repr

/-- A network call issued to the document store. -/
inductive StoreCall where
  | fetch (filter_query : Query) (projection : Option (List (String × Nat)))
  | upsert (record : Record)
deriving DecidableEq, Repr

/-- Whether a store call is an upsert (a remote write). -/
def isUpsert : StoreCall → Bool
  | StoreCall.upsert _ => true
  | StoreCall.fetch _ _ => false

/-- The external document-store client: what a fetch returns and how the store
answers each upsert.  (`MetadataDbClient` is out of scope; its behaviour is an
oracle.) -/
structure Client where
  fetch_result : List Record
  upsert_response : Record → UpsertResponse

/-- The attribute state of a `Migrator` instance (`migrate.py`, `__init__`).
`migrated_records` is only assigned in `_migrate` in the source; it is carried
here as an ordinary field, empty until `_migrate` runs. -/
structure Migrator where
  query : Query
  migration_callback : Record → Except String Record
  files : List String
  full_run : Bool
  dry_run_complete : Bool
  original_records : List Record
  migrated_records : List Record
  results : List ResultEntry

/-- `Migrator.__init__`: stores the arguments and initialises
`dry_run_complete = False`, `original_records = []`, `results = []`. -/
def Migrator.init (query : Query) (migration_callback : Record → Except String Record)
    (files : List String) (full_run : Bool) : Migrator :=
  { query := query
    migration_callback := migration_callback
    files := files
    full_run := full_run
    dry_run_complete := false
    original_records := []
    migrated_records := []
    results := [] }

/-- Python `dict` assignment `d[k] = v`: overwrite in place when the key is
present, append otherwise (insertion order is preserved). -/
def dictSet (d : List (String × Nat)) (k : String) (v : Nat) : List (String × Nat) :=
  if d.any (fun p => p.1 == k) then
    d.map (fun p => if p.1 == k then (k, v) else p)
  else
    d ++ [(k, v)]

/-- The projection built in `Migrator._setup`: for a truthy (non-empty)
`self.files`, the dict `{file: 1 for file in files}` followed by
`projection["_id"] = 1`; otherwise `None`. -/
def buildProjection (files : List String) : Option (List (String × Nat)) :=
  if files.isEmpty then
    none
  else
    some (dictSet (files.foldl (fun d f => dictSet d f 1) []) "_id" 1)

/-- `Migrator._setup`: build the projection, fetch the matching records and
store them as `self.original_records`.  Returns the new state and the store
calls made. -/
def Migrator._setup (m : Migrator) (client : Client) : Migrator × List StoreCall :=
  ({ m with original_records := client.fetch_result },
   [StoreCall.fetch m.query (buildProjection m.files)])

/-- The `for record in self.original_records` loop of `Migrator._migrate`,
with the two accumulators `self.migrated_records` and `self.results`: a
successful callback appends its value to the migrated list, a raised error
appends a `failed` entry with `str(e)` to the results and the loop continues. -/
def migrateLoop (cb : Record → Except String Record) :
    List Record → List Record → List ResultEntry → List Record × List ResultEntry
  | [], migrated, results => (migrated, results)
  | record :: rest, migrated, results =>
    match cb record with
    | Except.ok r => migrateLoop cb rest (migrated ++ [r]) results
    | Except.error e =>
        migrateLoop cb rest migrated
          (results ++ [{ _id := record._id, status := ResultStatus.failed, notes := e }])

/-- `Migrator._migrate`: sets `self.migrated_records = []` and runs the loop
over `self.original_records`. -/
def Migrator._migrate (m : Migrator) : Migrator :=
  let r := migrateLoop m.migration_callback m.original_records [] m.results
  { m with migrated_records := r.1, results := r.2 }

/-- The `for record in self.migrated_records` loop of `Migrator._upsert`: when
`self.full_run` is true, issue an upsert and classify the response
(`status_code == 200` gives a `success` entry with empty notes, anything else
a `failed` entry with `response.text`); when it is false, only a log line is
emitted — no store call and no results entry. -/
def upsertLoop (full_run : Bool) (client : Client) :
    List Record → List ResultEntry → List StoreCall → List ResultEntry × List StoreCall
  | [], results, calls => (results, calls)
  | record :: rest, results, calls =>
    if full_run then
      let response := client.upsert_response record
      if response.status_code = 200 then
        upsertLoop full_run client rest
          (results ++ [{ _id := record._id, status := ResultStatus.success, notes := "" }])
          (calls ++ [StoreCall.upsert record])
      else
        upsertLoop full_run client rest
          (results ++ [{ _id := record._id, status := ResultStatus.failed, notes := response.text }])
          (calls ++ [StoreCall.upsert record])
    else
      upsertLoop full_run client rest results calls

/-- `Migrator._upsert`: runs the loop over `self.migrated_records`, extending
`self.results`; returns the new state and the store calls made. -/
def Migrator._upsert (m : Migrator) (client : Client) : Migrator × List StoreCall :=
  let r := upsertLoop m.full_run client m.migrated_records m.results []
  ({ m with results := r.1 }, r.2)

/-- What `_teardown` would write: the zip archive name
(`{run_type}_run.zip`) and the rows of `results.csv`. -/
structure TeardownOutput where
  zip_name : String
  csv_rows : List ResultEntry
deriving DecidableEq, Repr

/-- Number of positional arguments `Migrator._teardown` passes to
`create_output_zip` in `migrate.py`: `create_output_zip("full" | "dry",
self.log_dir)`. -/
def teardown_zip_arg_count : Nat := 2

/-- The parameters of `create_output_zip` in `utils.py`:
`(run_type, log_dir, output_path)`, all required (no defaults). -/
def create_output_zip_params : List String := ["run_type", "log_dir", "output_path"]

/-- `Migrator._teardown`: first calls `create_output_zip`, then writes
`results.csv` from `self.results`.  In Python a call supplying fewer
positional arguments than the callee's required parameters raises `TypeError`
at the call, so the source's two-argument call to the three-parameter
`create_output_zip` raises before the CSV is written.  No attribute of `self`
is assigned in the body. -/
def Migrator._teardown (m : Migrator) : Except String TeardownOutput :=
  if teardown_zip_arg_count < create_output_zip_params.length then
    Except.error "TypeError: create_output_zip missing 1 required positional argument: output_path"
  else
    Except.ok
      { zip_name := (if m.full_run then "full" else "dry") ++ "_run.zip"
        csv_rows := m.results }

/-- The outcome of one `run()` call: the attribute state reached (Python
`self` survives a raised exception), the exception raised if any, the report
written if teardown succeeded, and the trace of store calls made. -/
structure RunResult where
  state : Migrator
  error : Option String
  report : Option TeardownOutput
  calls : List StoreCall

/-- `Migrator.run(full_run)`: raises `ValueError` when `full_run` is true and
`self.dry_run_complete` is false, before any stage runs; otherwise executes
`_setup`, `_migrate`, `_upsert`, `_teardown` in order.  The `full_run`
argument is consulted only by the guard (and a log line); the write-back
stage reads `self.full_run` from construction. -/
def Migrator.run (m : Migrator) (client : Client) (full_run : Bool) : RunResult :=
  if full_run && !m.dry_run_complete then
    { state := m
      error := some "Full run requested but dry run has not been completed."
      report := none
      calls := [] }
  else
    let s1 := m._setup client
    let m2 := s1.1._migrate
    let s3 := m2._upsert client
    match s3.1._teardown with
    | Except.error e =>
        { state := s3.1, error := some e, report := none, calls := s1.2 ++ s3.2 }
    | Except.ok out =>
        { state := s3.1, error := none, report := some out, calls := s1.2 ++ s3.2 }

/-- `Migrator.revert`: raises `ValueError` when `self.original_records` is
falsy (empty) with no store call; otherwise upserts every original record in
order.  Returns the exception, if any, and the store calls made. -/
def Migrator.revert (m : Migrator) : Option String × List StoreCall :=
  if m.original_records.isEmpty then
    (some "No original records to revert to.", [])
  else
    (none, m.original_records.map StoreCall.upsert)

/-! ### Characterizations of the stage loops -/

/-- The records a run of the transform loop adds to `migrated_records`: the
callback's outputs for exactly the records where it does not raise. -/
def migratedOf (cb : Record → Except String Record) (records : List Record) : List Record :=
  records.filterMap (fun r =>
    match cb r with
    | Except.ok r2 => some r2
    | Except.error _ => none)

/-- The `failed` entries the transform loop appends: one per record where the
callback raises, carrying the error's string representation. -/
def failedOf (cb : Record → Except String Record) (records : List Record) : List ResultEntry :=
  records.filterMap (fun r =>
    match cb r with
    | Except.ok _ => none
    | Except.error e =>
        some { _id := r._id, status := ResultStatus.failed, notes := e })

/-- How a full run classifies one upsert response. -/
def classify (client : Client) (r : Record) : ResultEntry :=
  if (client.upsert_response r).status_code = 200 then
    { _id := r._id, status := ResultStatus.success, notes := "" }
  else
    { _id := r._id, status := ResultStatus.failed, notes := (client.upsert_response r).text }

theorem migrateLoop_eq (cb : Record → Except String Record) (records : List Record)
    (migrated : List Record) (results : List ResultEntry) :
    migrateLoop cb records migrated results
      = (migrated ++ migratedOf cb records, results ++ failedOf cb records) := by
  induction records generalizing migrated results with
  | nil => simp [migrateLoop, migratedOf, failedOf]
  | cons record rest ih =>
    cases h : cb record with
    | ok r =>
      simp [migrateLoop, h, ih, migratedOf, failedOf, List.filterMap_cons]
    | error e =>
      simp [migrateLoop, h, ih, migratedOf, failedOf, List.filterMap_cons]

theorem upsertLoop_false (client : Client) (records : List Record)
    (results : List ResultEntry) (calls : List StoreCall) :
    upsertLoop false client records results calls = (results, calls) := by
  induction records with
  | nil => rfl
  | cons record rest ih => simp [upsertLoop, ih]

theorem upsertLoop_true (client : Client) (records : List Record)
    (results : List ResultEntry) (calls : List StoreCall) :
    upsertLoop true client records results calls
      = (results ++ records.map (classify client),
         calls ++ records.map StoreCall.upsert) := by
  induction records generalizing results calls with
  | nil => simp [upsertLoop]
  | cons record rest ih =>
    by_cases h : (client.upsert_response record).status_code = 200 <;>
      simp [upsertLoop, h, ih, classify]

/-- Helper: `_teardown` always raises, because `migrate.py` passes two
positional arguments to the three-parameter `create_output_zip` of `utils.py`. -/
theorem teardown_eq (m : Migrator) :
    m._teardown
      = Except.error
          "TypeError: create_output_zip missing 1 required positional argument: output_path" :=
  rfl

/-- Helper: when the guard does not fire, `run` executes the four stages; the
state reached, error, and call trace in closed form. -/
theorem run_no_guard (m : Migrator) (client : Client) (b : Bool)
    (h : (b && !m.dry_run_complete) = false) :
    m.run client b
      = { state := ((m._setup client).1._migrate._upsert client).1
          error := some
            "TypeError: create_output_zip missing 1 required positional argument: output_path"
          report := none
          calls := (m._setup client).2 ++ ((m._setup client).1._migrate._upsert client).2 } := by
  have h2 : ¬((b && !m.dry_run_complete) = true) := by simp [h]
  rw [Migrator.run, if_neg h2]
  rfl

/-- Helper: the store calls of a guard-passing run are one fetch followed by
one upsert per successfully transformed record when `self.full_run` holds,
and no upserts otherwise. -/
theorem pipeline_calls_eq (m : Migrator) (client : Client) :
    (m._setup client).2 ++ ((m._setup client).1._migrate._upsert client).2
      = StoreCall.fetch m.query (buildProjection m.files)
          :: (if m.full_run then
                (migratedOf m.migration_callback client.fetch_result).map StoreCall.upsert
              else []) := by
  cases hf : m.full_run <;>
    simp [Migrator._setup, Migrator._migrate, Migrator._upsert, migrateLoop_eq, hf,
      upsertLoop_false, upsertLoop_true]

theorem filter_isUpsert_map_upsert (records : List Record) :
    (records.map StoreCall.upsert).filter isUpsert = records.map StoreCall.upsert := by
  induction records with
  | nil => rfl
  | cons r rest ih => simp [isUpsert, ih]

/-! ### Claim theorems -/

/-- C1: for every query and every Migrator instance, `run(full_run=True)` when
no dry run has been completed (`dry_run_complete` is false) raises the
precondition `ValueError` before the fetch stage executes, leaves the state
untouched, and the store-call trace is empty (no fetch, no upsert). -/
theorem run_full_without_dry_raises (m : Migrator) (client : Client)
    (h : m.dry_run_complete = false) :
    m.run client true
      = { state := m
          error := some "Full run requested but dry run has not been completed."
          report := none
          calls := [] } := by
  simp [Migrator.run, h]

def mC1 : Migrator := Migrator.init [("field", "value")] (fun r => Except.ok r) [] false

def clientC1 : Client :=
  { fetch_result := [{ _id := "123", fields := [] }]
    upsert_response := fun _ => { status_code := 200, text := "" } }

/-- Witness for C1 at a concrete freshly constructed migrator. -/
theorem run_full_without_dry_raises_witness :
    mC1.dry_run_complete = false ∧
    (mC1.run clientC1 true).error
        = some "Full run requested but dry run has not been completed." ∧
    (mC1.run clientC1 true).calls = [] := by
  refine ⟨rfl, ?_, ?_⟩ <;> rw [run_full_without_dry_raises mC1 clientC1 rfl]

/-- C2: whenever the guard passes, the outcome of `run` is independent of the
`full_run` argument passed to `run` (it is used only for the guard and a log
line); whether upserts are issued is decided solely by the constructor-time
`self.full_run` flag: a migrator with `self.full_run = false` issues no
upserts even from `run(full_run=True)`, and one with `self.full_run = true`
issues one upsert per successfully transformed record even from
`run(full_run=False)`. -/
theorem run_upserts_follow_constructor_flag (m : Migrator) (client : Client) (b c : Bool)
    (hb : b = true → m.dry_run_complete = true)
    (hc : c = true → m.dry_run_complete = true) :
    m.run client b = m.run client c ∧
    (m.full_run = false → (m.run client b).calls.filter isUpsert = []) ∧
    (m.full_run = true →
      (m.run client b).calls.filter isUpsert
        = (migratedOf m.migration_callback client.fetch_result).map StoreCall.upsert) := by
  have hb2 : (b && !m.dry_run_complete) = false := by
    cases b
    · simp
    · simp [hb rfl]
  have hc2 : (c && !m.dry_run_complete) = false := by
    cases c
    · simp
    · simp [hc rfl]
  refine ⟨?_, ?_, ?_⟩
  · rw [run_no_guard m client b hb2, run_no_guard m client c hc2]
  · intro hf
    rw [run_no_guard m client b hb2]
    simp [pipeline_calls_eq, hf, isUpsert]
  · intro hf
    rw [run_no_guard m client b hb2]
    simp [pipeline_calls_eq, hf, isUpsert, filter_isUpsert_map_upsert]

def rC2 : Record := { _id := "123", fields := [("name", "old")] }

def mC2 : Migrator := Migrator.init [("field", "value")] (fun r => Except.ok r) [] true

def clientC2 : Client :=
  { fetch_result := [rC2]
    upsert_response := fun _ => { status_code := 200, text := "" } }

/-- Witness for C2: a migrator constructed with `full_run=True` that calls
`run(full_run=False)` still issues an upsert for its one record. -/
theorem run_upserts_follow_constructor_flag_witness :
    (mC2.run clientC2 false).calls.filter isUpsert = [StoreCall.upsert rC2] := by
  have h := (run_upserts_follow_constructor_flag mC2 clientC2 false false
    (by simp) (by simp)).2.2 rfl
  rw [h]
  rfl

/-- C7: the transform stage adds to the migrated set exactly the callback's
outputs for the records where it does not raise, and appends, in fetch order,
one `failed` entry with the error's string representation for each record
where it raises; a raising record is not added to the migrated set and does
not abort the batch, and the other attributes are untouched. -/
theorem migrate_partial_failure_semantics (m : Migrator) :
    m._migrate
      = { m with
          migrated_records := migratedOf m.migration_callback m.original_records
          results := m.results ++ failedOf m.migration_callback m.original_records } := by
  simp [Migrator._migrate, migrateLoop_eq]

/-- C8: in full-run mode the write-back stage issues exactly one upsert per
migrated record, in order, and classifies each response: status 200 appends a
`success` entry with empty notes, any other status appends a `failed` entry
whose notes are the response's text; the loop continues through the whole
batch. -/
theorem upsert_full_run_classification (m : Migrator) (client : Client)
    (h : m.full_run = true) :
    m._upsert client
      = ({ m with results := m.results ++ m.migrated_records.map (classify client) },
         m.migrated_records.map StoreCall.upsert) := by
  simp [Migrator._upsert, h, upsertLoop_true]

def rC8 : Record := { _id := "456", fields := [] }

def mC8 : Migrator :=
  { Migrator.init [("field", "value")] (fun r => Except.ok r) [] true with
      migrated_records := [rC8] }

def clientC8 : Client :=
  { fetch_result := []
    upsert_response := fun _ => { status_code := 500, text := "Internal Server Error" } }

/-- Witness for C8: the spec scenario — a full run whose upsert answers
status 500 with text "Internal Server Error" for id "456" yields the entry
`{"_id": "456", "status": "failed", "notes": "Internal Server Error"}` and
exactly one upsert call. -/
theorem upsert_full_run_classification_witness :
    (mC8._upsert clientC8).1.results
        = [{ _id := "456", status := ResultStatus.failed, notes := "Internal Server Error" }] ∧
    (mC8._upsert clientC8).2 = [StoreCall.upsert rC8] := by
  refine ⟨?_, ?_⟩ <;> rw [upsert_full_run_classification mC8 clientC8 rfl] <;> rfl

/-- C9: `revert()` raises the precondition `ValueError` and issues no store
calls when `original_records` is empty; otherwise it raises nothing and
issues exactly one upsert per original (pre-transform) record, in fetch
order — in particular the number of upserts equals the number of original
records. -/
theorem revert_spec (m : Migrator) :
    m.revert
      = (if m.original_records.isEmpty then
           (some "No original records to revert to.", [])
         else
           (none, m.original_records.map StoreCall.upsert)) ∧
    (m.revert).2.length
      = (if m.original_records.isEmpty then 0 else m.original_records.length) := by
  constructor
  · rfl
  · by_cases h : m.original_records.isEmpty <;> simp [Migrator.revert, h]

/-- Concrete migrator for the dry-run write-back stage: dry run
(`full_run = false`), one migrated record, empty results so far. -/
def mC3 : Migrator :=
  { Migrator.init [("field", "value")] (fun r => Except.ok r) [] false with
      migrated_records := [{ _id := "123", fields := [("name", "new_name")] }] }

def clientC3 : Client :=
  { fetch_result := []
    upsert_response := fun _ => { status_code := 200, text := "" } }

/-- C3 evidence: with `full_run = false` and one migrated record, `_upsert`
makes no store call (as the claim says) but also appends no results entry at
all: `results` stays empty, instead of gaining the claimed
`{"_id": "123", "status": "dry_run", "notes": ""}` entry (which the test
suite, `test_upsert_dry_run`, expects). -/
theorem upsert_dry_run_records_nothing :
    (mC3._upsert clientC3).2 = [] ∧ (mC3._upsert clientC3).1.results = [] := by
  constructor <;> rfl

def rC4 : Record := { _id := "123", fields := [] }

/-- One results entry left over from an earlier run, to observe whether `run`
resets `results`. -/
def staleEntryC4 : ResultEntry := { _id := "999", status := ResultStatus.success, notes := "" }

def mC4 : Migrator :=
  { Migrator.init [("field", "value")] (fun r => Except.ok r) [] false with
      dry_run_complete := true
      results := [staleEntryC4] }

def clientC4 : Client :=
  { fetch_result := [rC4]
    upsert_response := fun _ => { status_code := 200, text := "" } }

/-- C4 evidence: a dry run that fetches exactly one record (whose callback
succeeds) ends with `results` still equal to the stale entry from before the
run: zero entries were produced for the one fetched record (the dry-run
branch of `_upsert` appends nothing), and the list was not reset at the start
of the run. -/
theorem run_dry_not_one_entry_per_record :
    clientC4.fetch_result.length = 1 ∧
    (mC4.run clientC4 false).state.results = [staleEntryC4] := by
  constructor <;> rfl

/-- C5 evidence: no stage of `run` ever assigns `dry_run_complete`; the flag
after any `run` call equals the flag before it.  In particular a completed
dry run does not set it to true (the test suite, `test_teardown_dry_run`,
asserts it becomes true), so the guard for a later full run can never be
satisfied by running a dry run. -/
theorem run_never_sets_dry_run_complete (m : Migrator) (client : Client) (b : Bool) :
    (m.run client b).state.dry_run_complete = m.dry_run_complete := by
  cases b <;> cases hd : m.dry_run_complete <;>
    simp [Migrator.run, hd, Migrator._setup, Migrator._migrate, Migrator._upsert, teardown_eq]

/-- C6 evidence: `_teardown` raises `TypeError` on every invocation, because
`migrate.py` line 149 calls `create_output_zip` with two positional arguments
while `utils.py` defines it with three required parameters; the call happens
before `results.csv` is written, so the report stage never completes and
neither artifact is produced. -/
theorem teardown_always_raises (m : Migrator) :
    m._teardown
      = Except.error
          "TypeError: create_output_zip missing 1 required positional argument: output_path" :=
  rfl

/-- C10 evidence: the projection built for a non-empty field list contains
exactly the requested fields plus `_id`, in insertion order — the bookkeeping
fields `name` and `location` claimed by the spec (and expected by
`test_setup_with_files`) are absent; with no field list the projection is
`None`, so full documents are fetched. -/
theorem setup_projection_contents :
    buildProjection ["file1", "file2"]
        = some [("file1", 1), ("file2", 1), ("_id", 1)] ∧
    buildProjection [] = none := by
  constructor <;> rfl
